import Mathlib

/-!
Verification development for the ironbar custom-module runtime
(`src/modules/custom/mod.rs`).  The Rust code is shallowly embedded:
pure functions become Lean functions, the GTK side effects (adding a
child to a container, setting a size request) become explicit state
passing, the async controller loop becomes a trace-producing function
over the finite list of messages the channel delivers before it is
closed, and Rust panics become the `.error` case of `Except`.
-/

namespace IronbarSpec

/-! ### String helpers

Char-list level implementations of the Rust string operations used by
the module (`to_lowercase`, `[1..]`, `starts_with('!')`, split at the
first space), kept kernel-computable. -/

def strToLower (s : String) : String :=
  String.mk (s.data.map Char.toLower)

/-- Rust `&s[1..]` on a string whose first char is ASCII. -/
def strDrop1 (s : String) : String :=
  String.mk (s.data.drop 1)

/-- The part of `s` strictly before its first space. -/
def takeBeforeSpace (s : String) : String :=
  String.mk (s.data.takeWhile (fun c => c ≠ ' '))

/-- Rust `s.starts_with('!')`. -/
def startsWithBang (s : String) : Bool :=
  s.data.head? == some '!'

/-! ### GTK fragments

`gtk::Orientation` is a C enum; the gtk-rs binding carries an extra
catch-all variant, which is what the `_` arm of `set_length` matches. -/

inductive Orientation
  | Horizontal
  | Vertical
  | Unknown (v : Int)
deriving DecidableEq, Repr

/-- The sizing state of a GTK widget: its width and height requests
(`-1` means unset in GTK, but the value is irrelevant here). -/
structure GtkWidget where
  width_request : Int
  height_request : Int
deriving DecidableEq, Repr

def GtkWidget.set_width_request (w : GtkWidget) (l : Int) : GtkWidget :=
  { w with width_request := l }

def GtkWidget.set_height_request (w : GtkWidget) (l : Int) : GtkWidget :=
  { w with height_request := l }

/-- Sets the widget length, using either a width or height request
based on the bar's orientation.  (`set_length`, mod.rs:109-115.) -/
def set_length (widget : GtkWidget) (length : Int) (bar_orientation : Orientation) :
    GtkWidget :=
  match bar_orientation with
  | .Horizontal => widget.set_width_request length
  | .Vertical => widget.set_height_request length
  | _ => widget

/-- Attempts to parse an `Orientation` from a string.  Will accept
`horizontal`, `vertical`, `h` or `v`.  Ignores case.
(`try_get_orientation`, mod.rs:120-126.) -/
def try_get_orientation (orientation : String) : Except String Orientation :=
  match strToLower orientation with
  | "horizontal" | "h" => .ok .Horizontal
  | "vertical" | "v" => .ok .Vertical
  | _ => .error "Invalid orientation string in config"

/-- Claim C6: `try_get_orientation` returns `Horizontal` exactly on
strings whose lowercase form is `"horizontal"` or `"h"`, `Vertical`
exactly on lowercase `"vertical"` or `"v"`, and an error on every
other string (hence it accepts any casing of the four spellings). -/
theorem try_get_orientation_c6 (s : String) :
    (try_get_orientation s = .ok .Horizontal ↔
      (strToLower s = "horizontal" ∨ strToLower s = "h")) ∧
    (try_get_orientation s = .ok .Vertical ↔
      (strToLower s = "vertical" ∨ strToLower s = "v")) ∧
    ((strToLower s ≠ "horizontal" ∧ strToLower s ≠ "h" ∧
      strToLower s ≠ "vertical" ∧ strToLower s ≠ "v") ↔
      try_get_orientation s = .error "Invalid orientation string in config") := by
  unfold try_get_orientation
  split <;> simp_all

/-- Claim C7: `set_length` applies the length as a width request under
`Horizontal` leaving the height request unchanged, and as a height
request under `Vertical` leaving the width request unchanged. -/
theorem set_length_c7 (w : GtkWidget) (l : Int) :
    (set_length w l .Horizontal).width_request = l ∧
    (set_length w l .Horizontal).height_request = w.height_request ∧
    (set_length w l .Vertical).height_request = l ∧
    (set_length w l .Vertical).width_request = w.width_request := by
  refine ⟨rfl, rfl, rfl, rfl⟩

/-! ### The controller (`CustomModule::spawn_controller`, mod.rs:241-273)

The controller is the async task
`while let Some(event) = rx.recv().await { ... }`.  We model one run of
that task on the finite list of messages the channel delivers before it
is closed (`rx.recv()` returning `None` = end of list), as the list of
observable effects it performs, in order.  The external world — the
result of `script.get_output` — is an oracle parameter. -/

/-- The message a UI element sends to its controller
(`ExecEvent`, mod.rs:226-231). -/
structure ExecEvent where
  cmd : String
  args : Option (List String)
  id : Nat
deriving DecidableEq, Repr

/-- The controller→UI update event (defined in `src/modules/mod.rs`;
only the variants used by this module are modelled, with the arities
their uses in mod.rs:261-265 fix: `TogglePopup(usize)`,
`OpenPopup(usize)`, and `ClosePopup`, which is a unit variant — it is
sent as a bare value, so it carries no payload). -/
inductive ModuleUpdateEvent
  | TogglePopup (id : Nat)
  | OpenPopup (id : Nat)
  | ClosePopup
deriving DecidableEq, Repr

/-- The id a popup directive carries, if any. -/
def ModuleUpdateEvent.popupId : ModuleUpdateEvent → Option Nat
  | .TogglePopup id => some id
  | .OpenPopup id => some id
  | .ClosePopup => none

/-- Modelled from the spec: `Script::from` and `Script::get_output`
live in `src/script.rs`, which is not part of this excerpt.  Per the
spec, for a `"!"`-prefixed command "the prefix-stripped remainder
before the first space is the executable name, the configured arg list
is passed verbatim". -/
structure Script where
  cmd : String
deriving DecidableEq, Repr

/-- Modelled from the spec: `Script::from(&str)` (see `Script`). -/
def Script.fromStr (s : String) : Script :=
  ⟨takeBeforeSpace s⟩

/-- The oracle giving the outcome of `script.get_output(args)` for an
executable name and argument list: the external world. -/
def GetOutput : Type := String → List String → Except String String

/-- One observable effect of the controller task, in trace order.
`recv` marks a successful `rx.recv().await`; `execStart`/`execFinish`
bracket the awaited external execution (the `.await` on
`script.get_output` completes before the loop continues); `terminate`
marks the task ending (the `while let` loop falling through on
`None`). -/
inductive Effect
  | recv (event : ExecEvent)
  | logDebug (msg : String)
  | execStart (cmd : String) (args : List String)
  | execFinish (cmd : String)
  | sendUpdate (update : ModuleUpdateEvent)
  | logError (msg : String)
  | terminate
deriving DecidableEq, Repr

/-- The body of the controller's `while let` loop for one received
event (mod.rs:250-268). -/
def handleEvent (getOutput : GetOutput) (event : ExecEvent) : List Effect :=
  if startsWithBang event.cmd then
    let script := Script.fromStr (strDrop1 event.cmd)
    let args := event.args.getD []
    [.logDebug ("executing command: " ++ script.cmd), .execStart script.cmd args] ++
      (match getOutput script.cmd args with
       | .ok _ => [.execFinish script.cmd]
       | .error err => [.execFinish script.cmd, .logError err])
  else if event.cmd = "popup:toggle" then
    [.sendUpdate (.TogglePopup event.id)]
  else if event.cmd = "popup:open" then
    [.sendUpdate (.OpenPopup event.id)]
  else if event.cmd = "popup:close" then
    [.sendUpdate .ClosePopup]
  else
    [.logError ("Received invalid command: " ++ event.cmd)]

/-- The whole controller task run on the list of messages the channel
delivers before it is closed (mod.rs:248-270).  Each iteration fully
handles its event — including awaiting the external execution — before
the next `rx.recv().await`. -/
def runController (getOutput : GetOutput) : List ExecEvent → List Effect
  | [] => [.terminate]
  | event :: rest =>
      (.recv event :: handleEvent getOutput event) ++ runController getOutput rest

/-- The events dequeued in a trace, in order. -/
def recvsOf (trace : List Effect) : List ExecEvent :=
  trace.filterMap fun e =>
    match e with
    | .recv ev => some ev
    | _ => none

/-- The popup directives sent in a trace, in order. -/
def sendUpdatesOf (trace : List Effect) : List ModuleUpdateEvent :=
  trace.filterMap fun e =>
    match e with
    | .sendUpdate u => some u
    | _ => none

/-- The external executions started in a trace, in order. -/
def execStartsOf (trace : List Effect) : List (String × List String) :=
  trace.filterMap fun e =>
    match e with
    | .execStart c a => some (c, a)
    | _ => none

/-! Helper lemmas about the loop body and trace. -/

lemma handleEvent_ne_recv (g : GetOutput) (e : ExecEvent) (ev : ExecEvent) :
    Effect.recv ev ∉ handleEvent g e := by
  unfold handleEvent
  split
  · dsimp only; split <;> simp
  · split
    · simp
    · split
      · simp
      · split <;> simp

lemma handleEvent_ne_terminate (g : GetOutput) (e : ExecEvent) :
    Effect.terminate ∉ handleEvent g e := by
  unfold handleEvent
  split
  · dsimp only; split <;> simp
  · split
    · simp
    · split
      · simp
      · split <;> simp

lemma recvsOf_handleEvent (g : GetOutput) (e : ExecEvent) :
    recvsOf (handleEvent g e) = [] := by
  unfold handleEvent recvsOf
  split
  · dsimp only; split <;> simp
  · split
    · simp
    · split
      · simp
      · split <;> simp

lemma recvsOf_append (t₁ t₂ : List Effect) :
    recvsOf (t₁ ++ t₂) = recvsOf t₁ ++ recvsOf t₂ := by
  simp [recvsOf]

/-- The full shape of a controller run: the per-event blocks in receipt
order, then termination. -/
lemma runController_eq_blocks (g : GetOutput) (es : List ExecEvent) :
    runController g es =
      (es.flatMap fun e => Effect.recv e :: handleEvent g e) ++ [Effect.terminate] := by
  induction es with
  | nil => rfl
  | cons e rest ih => simp [runController, ih]

lemma count_terminate_handleEvent (g : GetOutput) (e : ExecEvent) :
    (Effect.recv e :: handleEvent g e).count Effect.terminate = 0 := by
  rw [List.count_eq_zero]
  intro h
  rcases List.mem_cons.mp h with h | h
  · exact absurd h.symm (by simp)
  · exact handleEvent_ne_terminate g e h

lemma recvsOf_cons_recv (ev : ExecEvent) (t : List Effect) :
    recvsOf (Effect.recv ev :: t) = ev :: recvsOf t := by
  simp [recvsOf]

lemma recvsOf_runController (g : GetOutput) (es : List ExecEvent) :
    recvsOf (runController g es) = es := by
  induction es with
  | nil => rfl
  | cons e rest ih =>
      rw [runController, recvsOf_append, recvsOf_cons_recv, recvsOf_handleEvent, ih]
      rfl

lemma count_terminate_flat (g : GetOutput) (es : List ExecEvent) :
    ((es.flatMap fun e => Effect.recv e :: handleEvent g e).count Effect.terminate) = 0 := by
  induction es with
  | nil => rfl
  | cons e rest ih =>
      rw [List.flatMap_cons, List.count_append, ih, count_terminate_handleEvent g e]

/-- A benign external world: every execution succeeds. -/
def gOk : GetOutput := fun _ _ => .ok ""

/-- Claim C2: the controller task dequeues every message the channel
delivers, in order, and terminates exactly once, as the very last step
of its trace — i.e. only after the channel is exhausted (closed), never
spontaneously while messages remain. -/
theorem controller_runs_until_close_c2 (g : GetOutput) (es : List ExecEvent) :
    recvsOf (runController g es) = es ∧
    (runController g es).getLast? = some Effect.terminate ∧
    (runController g es).count Effect.terminate = 1 := by
  refine ⟨recvsOf_runController g es, ?_, ?_⟩
  · rw [runController_eq_blocks]
    exact List.getLast?_concat _
  · rw [runController_eq_blocks, List.count_append, count_terminate_flat]
    rfl

/-- Claim C3 counterexample: the event `{cmd = "popup:close", id = 7}`
is routed to the popup subsystem as the bare `ClosePopup` directive,
which carries no id at all — not the event's id 7 as the claim states
for all three reserved strings. -/
theorem popup_close_no_id_counterexample_c3 :
    sendUpdatesOf (handleEvent gOk ⟨"popup:close", none, 7⟩) =
      [ModuleUpdateEvent.ClosePopup] ∧
    ModuleUpdateEvent.popupId ModuleUpdateEvent.ClosePopup ≠ some 7 := by
  exact ⟨by decide, by decide⟩

/-- Claim C3 (amended): for every event, the directives routed to the
popup subsystem are exactly: `TogglePopup` and `OpenPopup` carrying the
event's id for `"popup:toggle"` and `"popup:open"`, and the id-less
`ClosePopup` for `"popup:close"`; no other command string (including
`"!"`-commands) routes anything to the popup subsystem. -/
theorem popup_routing_c3 (g : GetOutput) (e : ExecEvent) :
    sendUpdatesOf (handleEvent g e) =
      if startsWithBang e.cmd then []
      else if e.cmd = "popup:toggle" then [ModuleUpdateEvent.TogglePopup e.id]
      else if e.cmd = "popup:open" then [ModuleUpdateEvent.OpenPopup e.id]
      else if e.cmd = "popup:close" then [ModuleUpdateEvent.ClosePopup]
      else [] := by
  unfold handleEvent
  split
  · dsimp only
    split <;> simp_all [sendUpdatesOf]
  · split
    · simp_all [sendUpdatesOf]
    · split
      · simp_all [sendUpdatesOf]
      · split <;> simp_all [sendUpdatesOf]

/-- Claim C4: a received command that neither starts with `'!'` nor is
one of the three reserved popup strings produces exactly one effect —
the invalid-command error report — and the controller then processes
the remaining messages exactly as if the invalid one had not
occurred. -/
theorem invalid_command_c4 (g : GetOutput) (e : ExecEvent) (rest : List ExecEvent)
    (hbang : ¬ startsWithBang e.cmd = true)
    (ht : e.cmd ≠ "popup:toggle") (ho : e.cmd ≠ "popup:open")
    (hc : e.cmd ≠ "popup:close") :
    handleEvent g e = [.logError ("Received invalid command: " ++ e.cmd)] ∧
    runController g (e :: rest) =
      [.recv e, .logError ("Received invalid command: " ++ e.cmd)] ++
        runController g rest := by
  have h1 : handleEvent g e = [.logError ("Received invalid command: " ++ e.cmd)] := by
    unfold handleEvent
    simp [hbang, ht, ho, hc]
  exact ⟨h1, by rw [runController, h1]⟩

/-- Witness for C4 at the spec's own example `"frobnicate"`, followed by
a further message that is still processed. -/
theorem invalid_command_c4_witness :
    handleEvent gOk ⟨"frobnicate", none, 0⟩ =
      [.logError ("Received invalid command: " ++ "frobnicate")] ∧
    runController gOk (⟨"frobnicate", none, 0⟩ :: [⟨"popup:open", none, 4⟩]) =
      [.recv ⟨"frobnicate", none, 0⟩,
       .logError ("Received invalid command: " ++ "frobnicate")] ++
        runController gOk [⟨"popup:open", none, 4⟩] :=
  invalid_command_c4 gOk ⟨"frobnicate", none, 0⟩ [⟨"popup:open", none, 4⟩]
    (by decide) (by decide) (by decide) (by decide)

/-- Claim C5: for a `'!'`-prefixed command the external execution is
started with the prefix-stripped remainder before the first space as
the executable name, and the event's separately supplied args list
(empty when absent) passed verbatim — and it is the only execution
started by that event. -/
theorem bang_command_exec_c5 (g : GetOutput) (e : ExecEvent)
    (hbang : startsWithBang e.cmd = true) :
    execStartsOf (handleEvent g e) =
      [(String.mk ((e.cmd.data.drop 1).takeWhile fun c => c ≠ ' '),
        e.args.getD [])] := by
  unfold handleEvent
  rw [if_pos hbang]
  dsimp only
  split <;> simp [execStartsOf, Script.fromStr, takeBeforeSpace, strDrop1]

/-- Witness for C5 on a command string with multiple spaces after the
prefix: the executable is the part before the first space only, and the
supplied args pass through verbatim. -/
theorem bang_command_exec_c5_witness :
    execStartsOf (handleEvent gOk ⟨"!echo hello  world", some ["a", "b"], 3⟩) =
      [("echo", ["a", "b"])] :=
  (bang_command_exec_c5 gOk ⟨"!echo hello  world", some ["a", "b"], 3⟩
    (by decide)).trans (by decide)

def evBangA : ExecEvent := ⟨"!a", none, 1⟩

def evBangB : ExecEvent := ⟨"!b", none, 2⟩

/-- Claim C9 counterexample: with two independent `'!'` commands queued,
the completion of the first command's external execution occurs strictly
before the second command is even dequeued — the loop `await`s
`get_output` inline, so executing one command does delay dequeuing and
starting the next, contrary to the claim. -/
theorem serialized_exec_counterexample_c9 :
    Effect.execFinish "a" ∈ runController gOk [evBangA, evBangB] ∧
    Effect.recv evBangB ∈ runController gOk [evBangA, evBangB] ∧
    (runController gOk [evBangA, evBangB]).indexOf (Effect.execFinish "a") <
      (runController gOk [evBangA, evBangB]).indexOf (Effect.recv evBangB) := by
  exact ⟨by decide, by decide, by decide⟩

/-- Claim C9 (amended): the controller dequeues commands in FIFO
(receipt) order, but it serializes executions: each event's entire
handling — including awaiting its external execution to completion —
occurs before the next message is dequeued, so completions cannot
interleave. -/
theorem fifo_serialized_c9 (g : GetOutput) (es : List ExecEvent) :
    recvsOf (runController g es) = es ∧
    runController g es =
      (es.flatMap fun e => Effect.recv e :: handleEvent g e) ++ [Effect.terminate] :=
  ⟨recvsOf_runController g es, runController_eq_blocks g es⟩

/-! ### The composite widget tree
(`WidgetOrModule::add_to`, `Widget::add_to`, `CustomModule::into_widget`,
`CustomModule::into_popup`; mod.rs:128-224 and 275-344)

GTK container mutation is modelled by explicit state passing: the
parent `gtk::Box`'s ordered child list, the `error!` log, and the
`Ironbar::unique_id()` counter form a `BuildState`.  A Rust panic
(`Option::expect`) is the `.error` case of `Except`. -/

/-- Common presentation options (`CommonConfig`, defined in
`src/config.rs`, not part of this excerpt).  Only its `name` field is
consulted by the code under study; the record is otherwise opaque and
carried around whole. -/
structure CommonConfig where
  name : Option String
deriving DecidableEq, Repr

/-- Abstract handle for the GTK widget a successfully constructed
nested module contributes (`widget_parts.widget`). -/
abbrev ModWidget := Nat

/-- A nested module description, as the `add_module!` macro sees it:
every concrete module struct matched in mod.rs:166-194 exposes a
`common: Option<CommonConfig>` field plus its own payload (opaque
here). -/
structure NestedModule where
  common : Option CommonConfig
  payload : Nat
deriving DecidableEq, Repr

/-- `config::ModuleConfig` (defined in `src/config.rs`, not part of
this excerpt): one variant per always-compiled arm of the match in
mod.rs:166-194 (`Custom`, `Label`, `Script`); the feature-gated arms
are omitted, as every arm invokes the identical `add_module!`
expansion. -/
inductive ModuleConfig
  | Custom (m : NestedModule)
  | Label (m : NestedModule)
  | Script (m : NestedModule)
deriving DecidableEq, Repr

/-- The nested module held by a `ModuleConfig` variant. -/
def ModuleConfig.module : ModuleConfig → NestedModule
  | .Custom m => m
  | .Label m => m
  | .Script m => m

/-- The primitive widget kinds (`Widget`, mod.rs:56-65); each payload
stands for the leaf widget's own configuration, whose rendering is a
leaf renderer outside this core. -/
inductive Widget
  | Box (w : Nat)
  | Label (w : Nat)
  | Button (w : Nat)
  | Image (w : Nat)
  | Slider (w : Nat)
  | Progress (w : Nat)
deriving DecidableEq, Repr

/-- A constructed inner widget: either a rendered primitive widget or
the widget of a successfully created nested module. -/
inductive InnerWidget
  | fromWidget (w : Widget)
  | fromModule (w : ModWidget)
deriving DecidableEq, Repr

/-- The leaf rendering step `widget.into_widget(context)`: leaf
renderers are outside this core, so the result is the tagged widget
itself. -/
def Widget.into_widget (self : Widget) : InnerWidget :=
  .fromWidget self

/-- The wrapped child actually appended to the parent container:
`wrap_widget` (in `src/modules/mod.rs`, not part of this excerpt)
wraps a constructed widget applying the common presentation options
under the given orientation; modelled as the record of exactly those
three inputs. -/
structure Child where
  inner : InnerWidget
  common : CommonConfig
  orientation : Orientation
deriving DecidableEq, Repr

def wrap_widget (inner : InnerWidget) (common : CommonConfig)
    (orientation : Orientation) : Child :=
  ⟨inner, common, orientation⟩

/-- The mutable context threaded through tree construction: the parent
container's ordered children, the `error!` log in emission order, and
the `Ironbar::unique_id()` counter. -/
structure BuildState where
  children : List Child
  errors : List String
  nextId : Nat
deriving DecidableEq, Repr

/-- Oracle for `crate::modules::create_module` (in
`src/modules/mod.rs`, not part of this excerpt): given the nested
module (after its `common` has been `take`n out), the fresh unique id,
and `common.name`, it either yields the module's constructed widget or
fails. -/
def CreateModule : Type := NestedModule → Nat → Option String → Except String ModWidget

/-- `Widget::add_to` (mod.rs:202-223): all six arms of the source
match expand to the same create-wrap-append; the wrapped event box is
appended to the parent. -/
def Widget.add_to (self : Widget) (orientation : Orientation)
    (common : CommonConfig) (st : BuildState) : BuildState :=
  { st with
      children := st.children ++ [wrap_widget self.into_widget common orientation] }

/-- The `add_module!` macro body (mod.rs:138-163):
`$module.common.take().expect("common config to exist")` — a panic when
absent — then `create_module`; on `Ok` the widget is wrapped with the
extracted common config and appended, on `Err` the error is logged and
nothing is appended. -/
def add_module (create : CreateModule) (orientation : Orientation)
    (module : NestedModule) (id : Nat) (st : BuildState) : Except String BuildState :=
  match module.common with
  | none => .error "common config to exist"
  | some common =>
      match create { module with common := none } id common.name with
      | .ok widget =>
          .ok { st with
                  children :=
                    st.children ++ [wrap_widget (.fromModule widget) common orientation] }
      | .error err => .ok { st with errors := st.errors ++ [err] }

/-- A configuration node: either a primitive widget or a nested module
(`WidgetOrModule`, mod.rs:49-54). -/
inductive WidgetOrModule
  | Widget (w : Widget)
  | Module (config : ModuleConfig)
deriving DecidableEq, Repr

/-- `WidgetOrModule::add_to` (mod.rs:128-198): a primitive widget is
rendered and appended with the node-level common config; a nested
module allocates a fresh unique id and goes through `add_module!`
(which uses the module's own embedded common config instead). -/
def WidgetOrModule.add_to (create : CreateModule) (orientation : Orientation)
    (self : WidgetOrModule) (common : CommonConfig) (st : BuildState) :
    Except String BuildState :=
  match self with
  | .Widget widget => .ok (widget.add_to orientation common st)
  | .Module config =>
      let id := st.nextId
      let st := { st with nextId := st.nextId + 1 }
      match config with
      | .Custom m => add_module create orientation m id st
      | .Label m => add_module create orientation m id st
      | .Script m => add_module create orientation m id st

/-- A configuration node with its flattened common fields
(`WidgetConfig`, mod.rs:41-47). -/
structure WidgetConfig where
  widget : WidgetOrModule
  common : CommonConfig
deriving DecidableEq, Repr

/-- The `for_each`/`for` loop realizing an ordered sequence of
configuration nodes into a parent container (mod.rs:295-299 and
334-338); a panic in one node aborts the whole loop (Rust unwinding),
an `Err` from `create_module` does not. -/
def buildBar (create : CreateModule) (orientation : Orientation) :
    List WidgetConfig → BuildState → Except String BuildState
  | [], st => .ok st
  | wc :: rest, st =>
      match wc.widget.add_to create orientation wc.common st with
      | .ok st => buildBar create orientation rest st
      | .error e => .error e

/-- `CustomModule` (mod.rs:30-39). -/
structure CustomModule where
  bar : List WidgetConfig
  popup : Option (List WidgetConfig)
  common : Option CommonConfig
deriving DecidableEq, Repr

/-- The popup `gtk::Box` returned by `into_popup`, as its ordered
child list. -/
structure PopupContainer where
  children : List Child
deriving DecidableEq, Repr

/-- `CustomModule::into_popup` (mod.rs:311-344): a container is always
created; it is filled from the popup config only when one is present;
the container is always returned as `Some`. -/
def CustomModule.into_popup (create : CreateModule) (orientation : Orientation)
    (startId : Nat) (self : CustomModule) : Except String (Option PopupContainer) :=
  match self.popup with
  | none => .ok (some ⟨[]⟩)
  | some popup =>
      match buildBar create orientation popup ⟨[], [], startId⟩ with
      | .ok st => .ok (some ⟨st.children⟩)
      | .error e => .error e

/-- The factory result (`ModuleParts`, in `src/modules/mod.rs`): the
bar widget (as its ordered children) and the optional popup node. -/
structure ModuleParts where
  widget : List Child
  popup : Option PopupContainer
deriving DecidableEq, Repr

/-- `CustomModule::into_widget` (mod.rs:275-309): builds the bar
container from `self.bar` in order, then the popup parts; the second
component of the result is the `error!` log emitted while building the
bar. -/
def CustomModule.into_widget (create : CreateModule) (orientation : Orientation)
    (startId : Nat) (self : CustomModule) : Except String (ModuleParts × List String) :=
  match buildBar create orientation self.bar ⟨[], [], startId⟩ with
  | .error e => .error e
  | .ok st =>
      match self.into_popup create orientation st.nextId with
      | .error e => .error e
      | .ok popup => .ok ({ widget := st.children, popup := popup }, st.errors)

/-! Helper lemmas about tree construction. -/

lemma module_add_to_eq (create : CreateModule) (orientation : Orientation)
    (cfg : ModuleConfig) (common : CommonConfig) (st : BuildState) :
    WidgetOrModule.add_to create orientation (.Module cfg) common st =
      add_module create orientation cfg.module st.nextId
        { st with nextId := st.nextId + 1 } := by
  cases cfg <;> rfl

lemma add_module_none (create : CreateModule) (orientation : Orientation)
    (m : NestedModule) (id : Nat) (st : BuildState) (h : m.common = none) :
    add_module create orientation m id st = .error "common config to exist" := by
  unfold add_module
  rw [h]

lemma add_module_some (create : CreateModule) (orientation : Orientation)
    (m : NestedModule) (id : Nat) (st : BuildState) (c : CommonConfig)
    (h : m.common = some c) :
    add_module create orientation m id st =
      match create { m with common := none } id c.name with
      | .ok w =>
          .ok { st with
                  children := st.children ++ [wrap_widget (.fromModule w) c orientation] }
      | .error err => .ok { st with errors := st.errors ++ [err] } := by
  unfold add_module
  rw [h]

lemma add_to_extends (create : CreateModule) (orientation : Orientation)
    (self : WidgetOrModule) (common : CommonConfig) (st st' : BuildState)
    (h : WidgetOrModule.add_to create orientation self common st = .ok st') :
    ∃ t, st'.children = st.children ++ t := by
  cases self with
  | Widget w =>
      cases h
      exact ⟨_, rfl⟩
  | Module cfg =>
      rw [module_add_to_eq] at h
      cases hm : cfg.module.common with
      | none => rw [add_module_none create orientation _ _ _ hm] at h; cases h
      | some c =>
          rw [add_module_some create orientation _ _ _ c hm] at h
          cases hc : create { cfg.module with common := none } st.nextId c.name with
          | ok w => rw [hc] at h; cases h; exact ⟨_, rfl⟩
          | error e => rw [hc] at h; cases h; exact ⟨[], (List.append_nil _).symm⟩

lemma buildBar_extends (create : CreateModule) (orientation : Orientation)
    (bar : List WidgetConfig) (st st' : BuildState)
    (h : buildBar create orientation bar st = .ok st') :
    ∃ t, st'.children = st.children ++ t := by
  induction bar generalizing st with
  | nil =>
      cases h
      exact ⟨[], (List.append_nil _).symm⟩
  | cons wc rest ih =>
      unfold buildBar at h
      cases ha : wc.widget.add_to create orientation wc.common st with
      | error e => rw [ha] at h; cases h
      | ok st₁ =>
          rw [ha] at h
          obtain ⟨t₁, h₁⟩ := add_to_extends create orientation wc.widget wc.common st st₁ ha
          obtain ⟨t₂, h₂⟩ := ih st₁ h
          exact ⟨t₁ ++ t₂, by rw [h₂, h₁, List.append_assoc]⟩

/-- Claim C1: tree construction only ever appends to the parent
container (so children appear strictly in configuration order), and a
nested module whose `create_module` fails is skipped with its error
logged while every sibling is still processed: a three-module config
`[A, B, C]` where exactly `B` fails builds children `[A, C]` in that
order with `B`'s error as the only log entry. -/
theorem into_widget_sibling_order_c1 :
    (∀ (create : CreateModule) (orientation : Orientation) (bar : List WidgetConfig)
        (st st' : BuildState),
      buildBar create orientation bar st = .ok st' →
        ∃ t, st'.children = st.children ++ t) ∧
    (∀ (create : CreateModule) (orientation : Orientation) (startId : Nat)
        (a b c : NestedModule) (nca ncb ncc ca cb cc : CommonConfig)
        (wA wC : ModWidget) (eB : String),
      a.common = some ca → b.common = some cb → c.common = some cc →
      create { a with common := none } startId ca.name = .ok wA →
      create { b with common := none } (startId + 1) cb.name = .error eB →
      create { c with common := none } (startId + 2) cc.name = .ok wC →
      CustomModule.into_widget create orientation startId
          ⟨[⟨.Module (.Custom a), nca⟩, ⟨.Module (.Custom b), ncb⟩,
            ⟨.Module (.Custom c), ncc⟩], none, none⟩ =
        .ok ({ widget := [wrap_widget (.fromModule wA) ca orientation,
                          wrap_widget (.fromModule wC) cc orientation],
               popup := some ⟨[]⟩ }, [eB])) := by
  constructor
  · exact fun create orientation bar st st' h =>
      buildBar_extends create orientation bar st st' h
  · intro create orientation startId a b c nca ncb ncc ca cb cc wA wC eB
      ha hb hc hA hB hC
    simp only [CustomModule.into_widget, buildBar, WidgetOrModule.add_to, add_module,
      ha, hb, hc, hA, hB, hC, CustomModule.into_popup]
    rfl

/-- A `create_module` oracle that fails exactly on payload 1. -/
def createSel : CreateModule := fun m _ _ =>
  if m.payload = 1 then .error "nested module failed" else .ok m.payload

def nmA : NestedModule := { common := some { name := none }, payload := 0 }

def nmB : NestedModule := { common := some { name := none }, payload := 1 }

def nmC : NestedModule := { common := some { name := none }, payload := 2 }

/-- Witness for C1: a concrete `[A, B, C]` bar where only `B` fails
yields children `[A, C]` in order and the single logged error. -/
theorem into_widget_sibling_order_c1_witness :
    CustomModule.into_widget createSel .Horizontal 0
        ⟨[⟨.Module (.Custom nmA), { name := none }⟩,
          ⟨.Module (.Custom nmB), { name := none }⟩,
          ⟨.Module (.Custom nmC), { name := none }⟩], none, none⟩ =
      .ok ({ widget := [wrap_widget (.fromModule 0) { name := none } .Horizontal,
                        wrap_widget (.fromModule 2) { name := none } .Horizontal],
             popup := some ⟨[]⟩ }, ["nested module failed"]) :=
  into_widget_sibling_order_c1.2 createSel .Horizontal 0 nmA nmB nmC
    { name := none } { name := none } { name := none }
    { name := none } { name := none } { name := none }
    0 2 "nested module failed" rfl rfl rfl rfl rfl rfl

/-- Claim C8: for a nested `Module` node, a missing common config makes
`add_to` fail fast with the `expect` panic message (a programming-
contract violation, not a logged user error); when present it is
extracted and used — passed (as its `name`) to `create_module`, and
used to wrap the resulting widget. -/
theorem module_common_contract_c8 (create : CreateModule) (orientation : Orientation)
    (cfg : ModuleConfig) (nodeCommon : CommonConfig) (st : BuildState) :
    (cfg.module.common = none →
      WidgetOrModule.add_to create orientation (.Module cfg) nodeCommon st =
        .error "common config to exist") ∧
    (∀ c, cfg.module.common = some c →
      WidgetOrModule.add_to create orientation (.Module cfg) nodeCommon st =
        match create { cfg.module with common := none } st.nextId c.name with
        | .ok w =>
            .ok { children := st.children ++ [wrap_widget (.fromModule w) c orientation],
                  errors := st.errors, nextId := st.nextId + 1 }
        | .error err =>
            .ok { children := st.children, errors := st.errors ++ [err],
                  nextId := st.nextId + 1 }) := by
  constructor
  · intro h
    rw [module_add_to_eq, add_module_none create orientation _ _ _ h]
  · intro c h
    rw [module_add_to_eq, add_module_some create orientation _ _ _ c h]

/-- A `create_module` oracle that always succeeds. -/
def createOk : CreateModule := fun m _ _ => .ok m.payload

/-- Witness for C8: a nested module with `common = None` panics with
the `expect` message. -/
theorem module_common_contract_c8_witness :
    WidgetOrModule.add_to createOk .Horizontal
        (.Module (.Custom { common := none, payload := 0 })) { name := none }
        ⟨[], [], 0⟩ =
      .error "common config to exist" :=
  (module_common_contract_c8 createOk .Horizontal
    (.Custom { common := none, payload := 0 }) { name := none } ⟨[], [], 0⟩).1 rfl

lemma into_popup_some_eq (create : CreateModule) (orientation : Orientation)
    (startId : Nat) (self : CustomModule) (cfgs : List WidgetConfig)
    (hp : self.popup = some cfgs) :
    CustomModule.into_popup create orientation startId self =
      match buildBar create orientation cfgs ⟨[], [], startId⟩ with
      | .ok st => .ok (some ⟨st.children⟩)
      | .error e => .error e := by
  unfold CustomModule.into_popup
  rw [hp]

/-- Claim C10: `into_popup` returns `Some` container for every
`CustomModule`; in particular with no popup config it returns an empty
container rather than `None`. -/
theorem into_popup_always_some_c10 (create : CreateModule) (orientation : Orientation)
    (startId : Nat) (self : CustomModule) :
    (self.popup = none →
      CustomModule.into_popup create orientation startId self = .ok (some ⟨[]⟩)) ∧
    (∀ r, CustomModule.into_popup create orientation startId self = .ok r →
      r.isSome = true) := by
  constructor
  · intro h
    unfold CustomModule.into_popup
    rw [h]
  · intro r h
    cases hp : self.popup with
    | none =>
        unfold CustomModule.into_popup at h
        rw [hp] at h
        cases h
        rfl
    | some cfgs =>
        rw [into_popup_some_eq create orientation startId self cfgs hp] at h
        cases hb : buildBar create orientation cfgs ⟨[], [], startId⟩ with
        | error e => rw [hb] at h; cases h
        | ok st => rw [hb] at h; cases h; rfl

/-- Witness for C10: a module with no popup config still yields a
(`Some`, empty) popup container. -/
theorem into_popup_always_some_c10_witness :
    CustomModule.into_popup createOk .Horizontal 0 ⟨[], none, none⟩ =
      .ok (some ⟨[]⟩) :=
  (into_popup_always_some_c10 createOk .Horizontal 0 ⟨[], none, none⟩).1 rfl

end IronbarSpec
